import Mathlib

/-!
# Verification of the Assignment Grader client (`client.py`)

A shallow embedding of the single source file `client.py` of the
Assignment-Grader repository, together with theorems settling the claims of
its specification.  Python dictionaries are modelled as association lists with
first-occurrence lookup and in-place update, Python strings keep their `String`
representation (slices act on the underlying character list), and the runtime
exceptions the interpreter can raise while executing the client are made
explicit through `Except`.
-/

namespace AssignmentGrader

/-- JSON-serializable values carried in request payloads and session state. -/
inductive Val where
  | str : String → Val
  | num : Int → Val
  deriving DecidableEq, Repr

/-- A Python `dict` with string keys, as an association list.  Lookup finds the
first occurrence; assignment overwrites the first occurrence in place or
appends. -/
abbrev Dict := List (String × Val)

/-- `d[k]` lookup returning `none` when the key is absent. -/
def dictGet (d : Dict) (k : String) : Option Val :=
  match d with
  | [] => none
  | (k', v) :: rest => if k' = k then some v else dictGet rest k

/-- Python `d[k] = v`: overwrite the first binding of `k`, or append a new
binding when `k` is absent. -/
def dictSet (d : Dict) (k : String) (v : Val) : Dict :=
  match d with
  | [] => [(k, v)]
  | (k', v') :: rest =>
      if k' = k then (k', v) :: rest else (k', v') :: dictSet rest k v

/-- Python `k in d`. -/
def dictContains (d : Dict) (k : String) : Bool :=
  (dictGet d k).isSome

theorem dictGet_dictSet (d : Dict) (k k' : String) (v : Val) :
    dictGet (dictSet d k v) k' = if k = k' then some v else dictGet d k' := by
  induction d with
  | nil =>
    by_cases h : k = k' <;> simp [dictSet, dictGet, h]
  | cons hd tl ih =>
    obtain ⟨k₀, v₀⟩ := hd
    by_cases h₀ : k₀ = k
    · subst h₀
      by_cases h : k₀ = k' <;> simp [dictSet, dictGet, h]
    · simp only [dictSet, if_neg h₀]
      by_cases h : k₀ = k'
      · subst h
        have : ¬ k = k₀ := fun hk => h₀ hk.symm
        simp [dictGet, this]
      · simp [dictGet, h, ih]

/-- Process-wide configuration read once at startup (`client.py` lines 12-18):
the three credentials from the environment and the server base URL held in
session state. -/
structure Config where
  api_server_url : String
  openai_api_key : String
  google_api_key : String
  search_engine_id : String
  deriving DecidableEq, Repr

/-- Lines 31-36 of `client.py`: `request_data = data.copy()` followed by the
three unconditional credential assignments. -/
def buildRequestData (cfg : Config) (data : Dict) : Dict :=
  let request_data := data
  let request_data := dictSet request_data "openai_api_key" (Val.str cfg.openai_api_key)
  let request_data := dictSet request_data "google_api_key" (Val.str cfg.google_api_key)
  dictSet request_data "search_engine_id" (Val.str cfg.search_engine_id)

theorem dictGet_buildRequestData (cfg : Config) (data : Dict) (k : String) :
    dictGet (buildRequestData cfg data) k =
      if k = "search_engine_id" then some (Val.str cfg.search_engine_id)
      else if k = "google_api_key" then some (Val.str cfg.google_api_key)
      else if k = "openai_api_key" then some (Val.str cfg.openai_api_key)
      else dictGet data k := by
  simp only [buildRequestData, dictGet_dictSet]
  by_cases h₁ : k = "search_engine_id"
  · simp [h₁]
  · by_cases h₂ : k = "google_api_key"
    · subst h₂; simp
    · by_cases h₃ : k = "openai_api_key"
      · subst h₃
        simp only [if_neg (Ne.symm h₁), if_neg (Ne.symm h₂), if_pos rfl]
        simp [h₁, h₂]
      · simp only [if_neg (Ne.symm h₁), if_neg (Ne.symm h₂),
          if_neg (Ne.symm h₃), if_neg h₁, if_neg h₂, if_neg h₃]

/-- The credential-redaction expression of `client.py` lines 41 and 45:
the Python f-string `key[:5] + "..." + key[-5:]`, with Python slice semantics
(`key[:5]` is the first at-most-5 characters, `key[-5:]` the last at-most-5).
Total for every string, including the empty one. -/
def redactKey (key : String) : String :=
  String.mk (key.data.take 5 ++ ('.' :: '.' :: '.' :: []) ++
    key.data.drop (key.data.length - 5))

/-- Exceptions the Python interpreter raises while running `client.py`. -/
inductive PyError where
  | unboundLocalError (name : String)
  | nameError (name : String)
  | keyError (key : String)
  | typeError
  deriving DecidableEq, Repr

/-- Read a local variable that may not have been assigned yet; Python raises
`UnboundLocalError` when it has not. -/
def readLocal (name : String) (value : Option String) : Except PyError String :=
  match value with
  | none => Except.error (PyError.unboundLocalError name)
  | some s => Except.ok s

/-- Python `d[k]` in expression position: `KeyError` when the key is absent,
and a `TypeError` when a string is required but the value is not one. -/
def pyGetStr (d : Dict) (k : String) : Except PyError String :=
  match dictGet d k with
  | some (Val.str s) => Except.ok s
  | some (Val.num _) => Except.error PyError.typeError
  | none => Except.error (PyError.keyError k)

/-- Lines 38-47 of `client.py`: build the redacted `log_data` from
`request_data`.  The local variable `key` is unbound until its first
assignment; the source reads it on line 41 (inside the `openai_api_key`
branch) and only assigns it on line 42, whereas the `google_api_key` branch
(lines 43-45) assigns before reading. -/
def buildLogData (request_data : Dict) : Except PyError Dict := do
  let log_data := request_data
  let key : Option String := none
  let (log_data, key) ←
    if dictContains log_data "openai_api_key" then do
      let k ← readLocal "key" key
      let log_data := dictSet log_data "openai_api_key" (Val.str (redactKey k))
      let key ← pyGetStr log_data "openai_api_key"
      pure (log_data, some key)
    else
      pure (log_data, key)
  let log_data ←
    if dictContains log_data "google_api_key" then do
      let key ← pyGetStr log_data "google_api_key"
      pure (dictSet log_data "google_api_key" (Val.str (redactKey key)))
    else
      pure log_data
  let _ := key
  pure log_data

/-- The HTTP request assembled by `requests.post` at lines 50-55, with the URL
from line 28.  The headers dictionary is the literal from line 53. -/
structure HttpRequest where
  url : String
  method : String
  headers : List (String × String)
  timeoutSeconds : Nat
  body : Dict
  deriving DecidableEq, Repr

/-- Lines 28 and 50-55 of `client.py`: the POST request sent for `tool_name`
carrying `request_data` as its JSON body. -/
def requestOf (cfg : Config) (tool_name : String) (request_data : Dict) : HttpRequest :=
  { url := cfg.api_server_url ++ "/tools/" ++ tool_name
    method := "POST"
    headers := [("Context-Type", "application/json")]
    timeoutSeconds := 60
    body := request_data }

/-- Outcome of the `requests.post` call: a response with a status code, a raw
text body and, when the body is valid JSON, its parsed value (`none` models
`json.JSONDecodeError` from `response.json()`); or a transport-level
exception with its message. -/
inductive HttpOutcome where
  | response (status : Nat) (text : String) (jsonBody : Option Val)
  | transportError (msg : String)

/-- What `call_api_tool` returns on a non-exceptional path: a parsed JSON
value (`response.json()`) or the raw response text. -/
inductive ToolResult where
  | jsonVal : Val → ToolResult
  | textVal : String → ToolResult
  deriving DecidableEq, Repr

/-- Observable logging/display events: `logger.info` with the redacted dict,
`logger.error`, and the Streamlit `st.error` display. -/
inductive LogEvent where
  | callInfo (tool_name : String) (log_data : Dict)
  | logError (msg : String)
  | stError (msg : String)
  deriving DecidableEq, Repr

/-- Line 58 of `client.py`: the error message for a non-200 status. -/
def statusErrorMessage (status : Nat) (text : String) : String :=
  "Error " ++ toString status ++ " from server: " ++ text

/-- Line 69 of `client.py`: the error message for a transport exception
(the source misspells "connecting"). -/
def transportErrorMessage (msg : String) : String :=
  "Error conecting to server: " ++ msg

/-- Lines 57-72 of `client.py`: normalize the outcome of the POST into a
result (`none` is Python `None`, the FailureSignal) plus the emitted
error/display events. -/
def handleResponse (outcome : HttpOutcome) : Option ToolResult × List LogEvent :=
  match outcome with
  | HttpOutcome.response status text jsonBody =>
      if status ≠ 200 then
        (none, [LogEvent.logError (statusErrorMessage status text),
                LogEvent.stError (statusErrorMessage status text)])
      else
        match jsonBody with
        | some v => (some (ToolResult.jsonVal v), [])
        | none => (some (ToolResult.textVal text), [])
  | HttpOutcome.transportError msg =>
      (none, [LogEvent.logError (transportErrorMessage msg),
              LogEvent.stError (transportErrorMessage msg)])

/-- Lines 26-72 of `client.py`: the whole of `call_api_tool`, for a server
modelled as a function from the assembled request to an outcome.  Returns the
result and the logged events, or the Python exception the call raises. -/
def call_api_tool (cfg : Config) (tool_name : String) (data : Dict)
    (server : HttpRequest → HttpOutcome) :
    Except PyError (Option ToolResult × List LogEvent) := do
  let request_data := buildRequestData cfg data
  let log_data ← buildLogData request_data
  let infoEvent := LogEvent.callInfo tool_name log_data
  let (result, events) := handleResponse (server (requestOf cfg tool_name request_data))
  pure (result, infoEvent :: events)

/-! ## Heap model of lines 31-36

To state that `call_api_tool` never mutates the dictionary of its caller, the
mutable dictionaries are placed on an explicit heap: an address is an index,
`data.copy()` allocates a fresh address holding the same contents, and item
assignment writes through an address. -/

/-- A heap of Python dictionaries; addresses are list indices. -/
abbrev Heap := List Dict

/-- Dereference an address (absent addresses read as an empty dict). -/
def heapGet (h : Heap) (r : Nat) : Dict :=
  (h[r]?).getD []

/-- Allocate a fresh dictionary, returning the new heap and its address. -/
def heapAlloc (h : Heap) (d : Dict) : Heap × Nat :=
  (h ++ [d], h.length)

/-- `h[r][k] = v`: in-place item assignment through an address. -/
def heapSetItem (h : Heap) (r : Nat) (k : String) (v : Val) : Heap :=
  h.set r (dictSet (heapGet h r) k v)

/-- Lines 31-36 of `client.py` run on the explicit heap: allocate
`request_data` as a copy of the dictionary at `dataRef`, then perform the
three credential item-assignments on `request_data` only.  Returns the final
heap and the address of `request_data`. -/
def buildRequestDataHeap (cfg : Config) (h : Heap) (dataRef : Nat) : Heap × Nat :=
  let (h, request_data) := heapAlloc h (heapGet h dataRef)
  let h := heapSetItem h request_data "openai_api_key" (Val.str cfg.openai_api_key)
  let h := heapSetItem h request_data "google_api_key" (Val.str cfg.google_api_key)
  let h := heapSetItem h request_data "search_engine_id" (Val.str cfg.search_engine_id)
  (h, request_data)

/-! ## The grading phase (tab 2, lines 149-188) -/

/-- Values stored in Streamlit session state. -/
inductive SVal where
  | str : String → SVal
  | result : Option ToolResult → SVal
  deriving DecidableEq, Repr

/-- Streamlit session state as an association list. -/
abbrev Session := List (String × SVal)

/-- `st.session_state[k]` lookup. -/
def sessionGet (s : Session) (k : String) : Option SVal :=
  match s with
  | [] => none
  | (k', v) :: rest => if k' = k then some v else sessionGet rest k

/-- `st.session_state[k] = v`. -/
def sessionSet (s : Session) (k : String) (v : SVal) : Session :=
  match s with
  | [] => [(k, v)]
  | (k', v') :: rest =>
      if k' = k then (k', v) :: rest else (k', v') :: sessionSet rest k v

/-- `st.session_state[k]` in expression position: raises `KeyError` when
absent, demands a string. -/
def sessionGetStr (s : Session) (k : String) : Except PyError String :=
  match sessionGet s k with
  | some (SVal.str t) => Except.ok t
  | some (SVal.result _) => Except.error PyError.typeError
  | none => Except.error (PyError.keyError k)

/-- An already-resolved tool invoker: given a tool name and payload it yields
a result or Python `None` (the FailureSignal), without raising. -/
abbrev Invoker := String → Dict → Option ToolResult

/-- Resolution of global names inside the tab-2 code.  The module of
`client.py` defines exactly one call helper, `call_api_tool`; the name
`call_mcp_tool` used at the call sites (lines 111, 157, 164, 174) is bound
nowhere, so looking it up raises `NameError`. -/
def moduleEnv (invoker : Invoker) : String → Option Invoker :=
  fun name => if name = "call_api_tool" then some invoker else none

/-- Streamlit display events emitted by the grading phase. -/
inductive StEvent where
  | stInfo (msg : String)
  | stWarning (msg : String)
  | stSuccess (msg : String)
  | stErr (msg : String)
  deriving DecidableEq, Repr

/-- Lines 183-188 of `client.py`: the completion message displayed after the
three calls, `st.success` when grading or feedback produced a result, and
`st.error` otherwise. -/
def gradingCompletionMessage (grade_results feedback : Option ToolResult) : StEvent :=
  if grade_results.isSome || feedback.isSome then
    StEvent.stSuccess "Grading completed!"
  else
    StEvent.stErr
      "Grading process encountered errors. Please check your server connection and API settings"

/-- Lines 149-188 of `client.py`: the body of the "Grade Assignment" button
handler, run when `document_text` is in session state.  `env` resolves global
function names (the call sites name `call_mcp_tool`).  Each call site first
resolves the callee, then evaluates its argument expressions, matching
the Python evaluation order.  Returns the final session state and the displayed
events, or the exception the run raises. -/
def gradingPhase (env : String → Option Invoker) (session : Session)
    (rubric : String) (check_plagirism_option : Bool) :
    Except PyError (Session × List StEvent) := do
  let session := sessionSet session "rubric" (SVal.str rubric)
  let (session, events) ←
    if check_plagirism_option then do
      let f ← match env "call_mcp_tool" with
              | some f => Except.ok f
              | none => Except.error (PyError.nameError "call_mcp_tool")
      let text ← sessionGetStr session "document_Text"
      let plagiarism_results := f "check_plagiarism" [("text", Val.str text)]
      let session := sessionSet session "plagiarism_results" (SVal.result plagiarism_results)
      let warn := if plagiarism_results.isNone then
          [StEvent.stWarning "Plagiarism check failed or returned no results."] else []
      pure (session, [StEvent.stInfo "Checking for plagiarism"] ++ warn)
    else
      pure (session, [])
  let f ← match env "call_mcp_tool" with
          | some f => Except.ok f
          | none => Except.error (PyError.nameError "call_mcp_tool")
  let text ← sessionGetStr session "document_text"
  let grade_results := f "grade_text" [("text", Val.str text), ("rubric", Val.str rubric)]
  let session := sessionSet session "grade_results" (SVal.result grade_results)
  let events := events ++ [StEvent.stInfo "Generating grade..."] ++
    (if grade_results.isNone then
      [StEvent.stWarning "Grade generation failed or returned no results."] else [])
  let f' ← match env "call_mcp_tool" with
           | some f' => Except.ok f'
           | none => Except.error (PyError.nameError "call_mcp_tool")
  let text' ← sessionGetStr session "document_text"
  let feedback := f' "generate_feedback" [("text", Val.str text'), ("rubric", Val.str rubric)]
  let session := sessionSet session "feedback" (SVal.result feedback)
  let events := events ++ [StEvent.stInfo "Generating feedback..."] ++
    (if feedback.isNone then
      [StEvent.stWarning "Feedback generation failed or returned no results."] else [])
  pure (session, events ++ [gradingCompletionMessage grade_results feedback])

/-! ## Results-phase plagiarism rendering (tab 3, lines 224-231) -/

/-- Lines 226-231 of `client.py`: the message rendered for one
`(url, similarity)` pair of the plagiarism results. -/
def renderSimilarity (url : String) (similarity : Int) : StEvent :=
  if similarity > 70 then
    StEvent.stWarning ("High similarity (" ++ toString similarity ++ "%): [" ++
      url ++ "](" ++ url ++ ")")
  else if similarity > 40 then
    StEvent.stInfo ("Moderate similarity (" ++ toString similarity ++ "%): [" ++
      url ++ "](" ++ url ++ ")")
  else
    StEvent.stSuccess ("Low similarity (" ++ toString similarity ++ "%): [" ++
      url ++ "](" ++ url ++ ")")

/-- Lines 225-231: the loop over `results.items()`. -/
def renderPlagiarismResults (results : List (String × Int)) : List StEvent :=
  results.map (fun p => renderSimilarity p.1 p.2)

/-- The display buckets named by the specification for a similarity value. -/
inductive Bucket where
  | high
  | moderate
  | low
  deriving DecidableEq, Repr

/-- The severity bucket a rendered Streamlit event conveys: `st.warning` is
the high-similarity rendering, `st.info` moderate, `st.success` low. -/
def bucketOfEvent : StEvent → Option Bucket
  | StEvent.stWarning _ => some Bucket.high
  | StEvent.stInfo _ => some Bucket.moderate
  | StEvent.stSuccess _ => some Bucket.low
  | StEvent.stErr _ => none

/-! ## Claim theorems -/

/-- Claim C1: for every tool name and payload, the body carried by the POST
request assembled by the invoker equals the payload with the three fields
`openai_api_key`, `google_api_key`, `search_engine_id` set to the configured
values, overwriting any same-named keys already present in the payload; every
other key keeps the value it had in the payload. -/
theorem c1_transmitted_body_overrides_credentials
    (cfg : Config) (tool_name : String) (data : Dict) (k : String) :
    dictGet (requestOf cfg tool_name (buildRequestData cfg data)).body k =
      if k = "openai_api_key" then some (Val.str cfg.openai_api_key)
      else if k = "google_api_key" then some (Val.str cfg.google_api_key)
      else if k = "search_engine_id" then some (Val.str cfg.search_engine_id)
      else dictGet data k := by
  show dictGet (buildRequestData cfg data) k = _
  rw [dictGet_buildRequestData]
  by_cases h₁ : k = "openai_api_key"
  · subst h₁; simp
  · by_cases h₂ : k = "google_api_key"
    · subst h₂; simp
    · by_cases h₃ : k = "search_engine_id"
      · subst h₃; simp
      · simp [h₁, h₂, h₃]

/-- Claim C5: on a 200 response whose body is not valid JSON, the invoker
returns the raw response text as the result, not the FailureSignal; in
particular a 200 response with body "hello" yields the string "hello". -/
theorem c5_200_nonjson_returns_raw_text (text : String) :
    (handleResponse (HttpOutcome.response 200 text none)).1 =
        some (ToolResult.textVal text) ∧
    (handleResponse (HttpOutcome.response 200 "hello" none)).1 =
        some (ToolResult.textVal "hello") := by
  exact ⟨rfl, rfl⟩

/-- Claim C7: every similarity value displayed by the Results phase is
bucketed strictly: above 70 renders as the high-similarity warning, above 40
and at most 70 as the moderate-similarity info, at most 40 as the
low-similarity success; in particular 71 is high, 70 moderate, 41 moderate,
40 low and 0 low. -/
theorem c7_plagiarism_bucketing :
    (∀ url : String, ∀ similarity : Int,
      bucketOfEvent (renderSimilarity url similarity) =
        some (if similarity > 70 then Bucket.high
              else if similarity > 40 then Bucket.moderate
              else Bucket.low)) ∧
    bucketOfEvent (renderSimilarity "siteA.com" 71) = some Bucket.high ∧
    bucketOfEvent (renderSimilarity "siteA.com" 70) = some Bucket.moderate ∧
    bucketOfEvent (renderSimilarity "siteA.com" 41) = some Bucket.moderate ∧
    bucketOfEvent (renderSimilarity "siteA.com" 40) = some Bucket.low ∧
    bucketOfEvent (renderSimilarity "siteA.com" 0) = some Bucket.low := by
  refine ⟨?_, by decide, by decide, by decide, by decide, by decide⟩
  intro url s
  by_cases h70 : s > 70
  · simp [renderSimilarity, bucketOfEvent, h70]
  · by_cases h40 : s > 40 <;>
      simp [renderSimilarity, bucketOfEvent, h70, h40]

/-- Claim C9: the grading phase displays the "Grading completed!" success
outcome exactly when at least one of the grading result and the feedback
result is non-null, and the overall-failure error outcome exactly when both
are null. -/
theorem c9_overall_success_iff_some_result
    (grade_results feedback : Option ToolResult) :
    (gradingCompletionMessage grade_results feedback =
        StEvent.stSuccess "Grading completed!" ↔
      (grade_results ≠ none ∨ feedback ≠ none)) ∧
    (gradingCompletionMessage grade_results feedback =
        StEvent.stErr
          "Grading process encountered errors. Please check your server connection and API settings" ↔
      (grade_results = none ∧ feedback = none)) := by
  cases grade_results <;> cases feedback <;>
    simp [gradingCompletionMessage]

theorem dictContains_buildRequestData_openai (cfg : Config) (data : Dict) :
    dictContains (buildRequestData cfg data) "openai_api_key" = true := by
  simp [dictContains, dictGet_buildRequestData]

/-- Claim C2 (refuting the never-raises guarantee): every call to
`call_api_tool`, for every configuration, tool name, payload and server
behaviour, raises `UnboundLocalError` on the local variable `key`: line 41
reads `key` before its first assignment (line 42), and the read is reached on
every call because line 34 unconditionally puts `openai_api_key` into the
request.  The raise happens before the `try` block, so it propagates to the
caller instead of becoming a returned FailureSignal. -/
theorem c2_every_call_raises_unbound_local
    (cfg : Config) (tool_name : String) (data : Dict)
    (server : HttpRequest → HttpOutcome) :
    call_api_tool cfg tool_name data server =
      Except.error (PyError.unboundLocalError "key") := by
  simp only [call_api_tool, buildLogData, dictContains_buildRequestData_openai,
    readLocal, if_true]
  rfl

/-- Claim C4 (request shape, with the misspelled header): the invoker
assembles a POST to the configured base URL followed by "/tools/" and the
tool name, with a 60-second timeout and the prepared body; but the header
dictionary it passes is exactly the singleton { "Context-Type":
"application/json" } from line 53, which contains no "Content-Type" entry, so
the explicitly configured headers carry no content-type field. -/
theorem c4_request_shape_and_header_typo
    (cfg : Config) (tool_name : String) (request_data : Dict) :
    (requestOf cfg tool_name request_data).url =
        cfg.api_server_url ++ "/tools/" ++ tool_name ∧
    (requestOf cfg tool_name request_data).method = "POST" ∧
    (requestOf cfg tool_name request_data).timeoutSeconds = 60 ∧
    (requestOf cfg tool_name request_data).body = request_data ∧
    (requestOf cfg tool_name request_data).headers =
        [("Context-Type", "application/json")] ∧
    ∀ v : String, ("Content-Type", v) ∉ (requestOf cfg tool_name request_data).headers := by
  refine ⟨rfl, rfl, rfl, rfl, rfl, ?_⟩
  intro v hv
  simp only [requestOf, List.mem_singleton, Prod.mk.injEq] at hv
  exact absurd hv.1 (by decide)

/-- Claim C6: on any non-200 response the invoker returns the FailureSignal
and emits a logged error message that contains both the status code and the
response body as substrings. -/
theorem c6_non200_returns_failure_and_logs
    (status : Nat) (text : String) (jsonBody : Option Val)
    (h : status ≠ 200) :
    (handleResponse (HttpOutcome.response status text jsonBody)).1 = none ∧
    LogEvent.logError (statusErrorMessage status text) ∈
      (handleResponse (HttpOutcome.response status text jsonBody)).2 ∧
    (toString status).data <:+: (statusErrorMessage status text).data ∧
    text.data <:+: (statusErrorMessage status text).data := by
  refine ⟨?_, ?_, ?_, ?_⟩
  · simp [handleResponse, h]
  · simp [handleResponse, h]
  · refine ⟨("Error " : String).data, (" from server: " ++ text).data, ?_⟩
    simp [statusErrorMessage, String.data_append]
  · refine ⟨("Error " ++ toString status ++ " from server: " : String).data, [], ?_⟩
    simp [statusErrorMessage, String.data_append]

/-- Witness for C6 at the 404 example of the specification. -/
theorem c6_non200_witness :
    (handleResponse (HttpOutcome.response 404 "Not Found" none)).1 = none ∧
    LogEvent.logError (statusErrorMessage 404 "Not Found") ∈
      (handleResponse (HttpOutcome.response 404 "Not Found" none)).2 ∧
    (toString (404 : Nat)).data <:+: (statusErrorMessage 404 "Not Found").data ∧
    ("Not Found" : String).data <:+: (statusErrorMessage 404 "Not Found").data :=
  c6_non200_returns_failure_and_logs 404 "Not Found" none (by decide)

/-- Claim C10: lines 31-36 never mutate the dictionary supplied by the
caller: on the explicit heap, after the copy and the three credential
assignments, the dictionary at the address of the caller still holds exactly
its original bindings. -/
theorem c10_invoker_does_not_mutate_payload
    (cfg : Config) (h : Heap) (dataRef : Nat) (hlt : dataRef < h.length) :
    heapGet (buildRequestDataHeap cfg h dataRef).1 dataRef = heapGet h dataRef := by
  have hne : h.length ≠ dataRef := fun he => absurd hlt (by rw [he]; exact Nat.lt_irrefl _)
  simp only [buildRequestDataHeap, heapAlloc, heapSetItem, heapGet]
  rw [List.getElem?_set_ne hne, List.getElem?_set_ne hne, List.getElem?_set_ne hne,
    List.getElem?_append_left hlt]

/-- Witness for C10 at a concrete one-dictionary heap. -/
theorem c10_invoker_does_not_mutate_payload_witness :
    (0 < ([[("text", Val.str "hi")]] : Heap).length) ∧
    heapGet (buildRequestDataHeap
        { api_server_url := "http://localhost:8088", openai_api_key := "ok",
          google_api_key := "gk", search_engine_id := "se" }
        [[("text", Val.str "hi")]] 0).1 0 =
      heapGet [[("text", Val.str "hi")]] 0 :=
  ⟨by decide,
    c10_invoker_does_not_mutate_payload
      { api_server_url := "http://localhost:8088", openai_api_key := "ok",
        google_api_key := "gk", search_engine_id := "se" }
      [[("text", Val.str "hi")]] 0 (by decide)⟩

/-- Counterexample to claim C3 as stated: the thirteen-character credential
value "aaaaa...aaaaa" has length at least 10, yet its redaction — first five
characters, then "...", then last five characters — is the value itself, so
the logged representation does contain the full original value as a
substring. -/
theorem c3_counterexample_redaction_contains_value :
    10 ≤ ("aaaaa...aaaaa" : String).length ∧
    redactKey "aaaaa...aaaaa" = "aaaaa...aaaaa" ∧
    ("aaaaa...aaaaa" : String).data <:+: (redactKey "aaaaa...aaaaa").data := by
  refine ⟨by decide, by decide, ?_⟩
  have h : redactKey "aaaaa...aaaaa" = "aaaaa...aaaaa" := by decide
  rw [h]

/-- Claim C3 (amended): for every credential value of length at least 10 the
logged representation is exactly the first five characters, "...", and the
last five characters; it never contains the full original value as a
substring once the value has length at least 14 (a value of length 10 to 13
can coincide with or embed in its own 13-character redaction); and the
redaction is defined for every value, including short and empty ones, with
length 3 plus twice the at-most-5-character visible slices. -/
theorem c3_redaction_amended (v : String) :
    (10 ≤ v.length →
      redactKey v = String.mk (v.data.take 5 ++ ('.' :: '.' :: '.' :: []) ++
        v.data.drop (v.data.length - 5))) ∧
    (14 ≤ v.length → ¬ v.data <:+: (redactKey v).data) ∧
    (redactKey v).length = min 5 v.data.length + (3 + min 5 v.data.length) := by
  have hlen : (redactKey v).length =
      min 5 v.data.length + (3 + min 5 v.data.length) := by
    simp only [redactKey, String.length]
    simp [List.length_take, List.length_drop]
    omega
  refine ⟨fun _ => rfl, fun h14 hinf => ?_, hlen⟩
  have hle : v.data.length ≤ (redactKey v).data.length := List.IsInfix.length_le hinf
  have hv : v.length = v.data.length := rfl
  have hr : (redactKey v).length = (redactKey v).data.length := rfl
  omega

/-- Witness for C3 (amended) at a fourteen-character value. -/
theorem c3_redaction_amended_witness :
    (10 ≤ ("abcdefghijklmn" : String).length →
      redactKey "abcdefghijklmn" =
        String.mk (("abcdefghijklmn" : String).data.take 5 ++
          ('.' :: '.' :: '.' :: []) ++
          ("abcdefghijklmn" : String).data.drop
            (("abcdefghijklmn" : String).data.length - 5))) ∧
    ¬ ("abcdefghijklmn" : String).data <:+: (redactKey "abcdefghijklmn").data :=
  ⟨(c3_redaction_amended "abcdefghijklmn").1,
    (c3_redaction_amended "abcdefghijklmn").2.1 (by decide)⟩

/-- Claim C8 (refuted by two slips in lines 154-160): with plagiarism
checking enabled and `document_text` stored, the grading phase does not call
the plagiarism tool.  Under the module environment of `client.py` — which
defines only `call_api_tool` — resolving the name `call_mcp_tool` used at the
call site raises `NameError`; and under any environment in which
`call_mcp_tool` does resolve to an invoker, the argument expression reads the
session key "document_Text" (capital T) while the stored key is
"document_text", so the lookup raises `KeyError` before any call is made. -/
theorem c8_grading_phase_crashes :
    (∀ inv : Invoker, ∀ rubric : String,
      gradingPhase (moduleEnv inv)
          [("document_text", SVal.str "Lorem ipsum")] rubric true =
        Except.error (PyError.nameError "call_mcp_tool")) ∧
    (∀ f : Invoker, ∀ rubric : String,
      gradingPhase (fun name => if name = "call_mcp_tool" then some f else none)
          [("document_text", SVal.str "Lorem ipsum")] rubric true =
        Except.error (PyError.keyError "document_Text")) := by
  constructor
  · intro inv rubric
    simp only [gradingPhase, moduleEnv]
    rw [if_neg (by decide : ¬ ("call_mcp_tool" : String) = "call_api_tool")]
    rfl
  · intro f rubric
    simp only [gradingPhase, if_pos rfl]
    have hget : sessionGetStr
        (sessionSet [("document_text", SVal.str "Lorem ipsum")] "rubric"
          (SVal.str rubric)) "document_Text" =
        Except.error (PyError.keyError "document_Text") := by
      simp [sessionSet, sessionGetStr, sessionGet]
    rw [hget]
    rfl

end AssignmentGrader
